import Mathlib

/-!
Verification of the authenticated HTTP client of this repository
(`src/api/product.api.ts` together with the `api-client` module it imports:
the MMKV-backed token store `apiTokenLocalStorage`, the axios instance
`apiClient` with its request/response interceptors, `refreshTokens`,
`handleApiError` and `handleLogout`).

The embedding is shallow: the MMKV key-value store becomes a record of the
two keys the client uses, the axios transport becomes an oracle value naming
which outcome the network produced, and one logical call through `apiClient`
(first attempt, optional refresh, optional single retry) becomes the total
function `send`, which also counts the observable effects (transport calls,
token-exchange calls, logout signals, writes of the `_retry` flag).
-/

/-- JavaScript truthiness of a `string | undefined | null` value:
`undefined`/`null` and the empty string are falsy.  Used for the source's
`if (accessToken ...)`, `if (!refreshToken)` and `if (newAccessToken)`. -/
def jsTruthy : Option String → Bool
  | none => false
  | some s => s ≠ ""

/-- The MMKV instance `apiTokenLocalStorage`, restricted to the two keys the
client ever reads or writes (`access_token`, `refresh_token`). -/
structure MMKV where
  access_token : Option String
  refresh_token : Option String
deriving Repr, DecidableEq

/-- The read operation `apiTokenLocalStorage.getString(key)`: `undefined` (here `none`) when the
key is absent. -/
def MMKV.getString (s : MMKV) (key : String) : Option String :=
  if key = "access_token" then s.access_token
  else if key = "refresh_token" then s.refresh_token
  else none

/-- The write operation `apiTokenLocalStorage.set(key, value)` with a string value. -/
def MMKV.set (s : MMKV) (key : String) (v : String) : MMKV :=
  if key = "access_token" then { s with access_token := some v }
  else if key = "refresh_token" then { s with refresh_token := some v }
  else s

/-- The delete operation `apiTokenLocalStorage.delete(key)`; deleting an absent key is a no-op. -/
def MMKV.delete (s : MMKV) (key : String) : MMKV :=
  if key = "access_token" then { s with access_token := none }
  else if key = "refresh_token" then { s with refresh_token := none }
  else s

/-- The write operation `apiTokenLocalStorage.set(key, value)` as called from `refreshTokens`,
where the value is a destructured response field of type
`string | undefined`.  react-native-mmkv's `set` accepts only
`boolean | string | number | Uint8Array` and throws on `undefined`
("Second argument ('value') has to be of type bool, number or string"),
so the `none` case is an exception (`Except.error`). -/
def MMKV.setJS (s : MMKV) (key : String) : Option String → Except String MMKV
  | none => Except.error "MMKV: value must be a string"
  | some v => Except.ok (s.set key v)

/-- The body of the token-exchange response, as destructured in
`refreshTokens`: `const {accessToken, refresh_token: newRefreshToken} =
response.data;`.  Either field may be absent (`undefined`). -/
structure ExchangeData where
  accessToken : Option String
  refresh_token : Option String
deriving Repr, DecidableEq

/-- Outcome of the token-exchange network call
`axios.post(ENDPOINTS.REFRESH_TOKEN_PATH, {refreshToken})`.
axios resolves with the parsed body on a 2xx status and rejects on a
non-success status or a network error. -/
inductive ExchangeTransport where
  /-- A 2xx response; `response.data` destructures to the given fields. -/
  | success (data : ExchangeData)
  /-- Non-success HTTP status: axios rejects the promise. -/
  | httpError (status : Nat) (message : String)
  /-- No response received: axios rejects the promise. -/
  | networkError (message : String)
deriving Repr, DecidableEq

/-- The refresh POST is issued on the bare default `axios` instance, not on
`apiClient`, so none of `apiClient`'s request/response interceptors run on
it: every rejection is surfaced directly to the `try`/`catch` of
`refreshTokens`, with no 401-triggered nested refresh and no retry. -/
def bareAxiosPost : ExchangeTransport → Except String ExchangeData
  | .success d => Except.ok d
  | .httpError _ m => Except.error m
  | .networkError m => Except.error m

/-- The `try` block of `refreshTokens`.  Returns either the new access token
together with the store as updated so far, or the thrown error together with
the store state at the moment of the throw (the `catch` block deletes from
that state).  The second component counts token-exchange network calls.

Source order inside `try`: read `refresh_token`; throw if falsy; POST the
exchange; destructure `{accessToken, refresh_token: newRefreshToken}`;
`set('refresh_token', newRefreshToken)`; `set('access_token', accessToken)`;
`return accessToken`. -/
def refreshTokensBody (store : MMKV) (exchange : ExchangeTransport) :
    Except (String × MMKV) (String × MMKV) × Nat :=
  let refreshToken := store.getString "refresh_token"
  if jsTruthy refreshToken then
    match bareAxiosPost exchange with
    | .error m => (Except.error (m, store), 1)
    | .ok data =>
      match store.setJS "refresh_token" data.refresh_token with
      | .error m => (Except.error (m, store), 1)
      | .ok s1 =>
        match s1.setJS "access_token" data.accessToken with
        | .error m => (Except.error (m, s1), 1)
        | .ok s2 =>
          -- `return accessToken`: reaching here means it was a string
          (Except.ok (data.accessToken.getD "", s2), 1)
  else (Except.error ("No refresh token available.", store), 0)

/-- Result of one `refreshTokens()` invocation: the returned
`string | null`, the store it leaves behind, and how many token-exchange
network calls it made. -/
structure RefreshResult where
  newAccessToken : Option String
  store : MMKV
  exchangeCalls : Nat
deriving Repr, DecidableEq

/-- The function `refreshTokens` from the api-client: runs the `try` body; the `catch`
block deletes both tokens from the store and returns `null`, so the function
never throws. -/
def refreshTokens (store : MMKV) (exchange : ExchangeTransport) : RefreshResult :=
  match refreshTokensBody store exchange with
  | (.ok (tok, s), n) => { newAccessToken := some tok, store := s, exchangeCalls := n }
  | (.error (_, s), n) =>
      { newAccessToken := none
        store := (s.delete "access_token").delete "refresh_token"
        exchangeCalls := n }

/-- The header map of an axios request config.  The request interceptor only
ever assigns `config.headers.Authorization`; every other header is carried
in `rest` untouched.  In axios an `InternalAxiosRequestConfig` always has a
headers object, so the source guard `config.headers` is always truthy. -/
structure Headers where
  authorization : Option String
  rest : List (String × String)
deriving Repr, DecidableEq

/-- An axios request config as the interceptors see it: the request line
fields, the headers, and the ad-hoc `_retry` flag the response interceptor
stores on the config object (absent on a fresh request, i.e. `false`). -/
structure RequestConfig where
  url : String
  method : String
  data : Option String
  headers : Headers
  retryFlag : Bool
deriving Repr, DecidableEq

/-- The `apiClient` request interceptor: read `access_token` from the store;
if it is truthy (and the headers object exists, which it always does), set
`config.headers.Authorization = Bearer <token>`; otherwise return the config
unchanged. -/
def requestInterceptor (store : MMKV) (config : RequestConfig) : RequestConfig :=
  let accessToken := store.getString "access_token"
  if jsTruthy accessToken then
    { config with
        headers := { config.headers with
          authorization := some ("Bearer " ++ accessToken.getD "") } }
  else config

/-- The function `handleLogout` deletes both tokens and logs
"Logout successful and data cleared." (the logout signal, counted here as
`1`).  The whole body is wrapped in `try`/`catch`, and none of the store
deletes or the debug log can throw, so the function always completes without
raising. -/
def handleLogout (store : MMKV) : MMKV × Nat :=
  (((store.delete "access_token").delete "refresh_token"), 1)

/-- The function `handleApiError` switches on the response status; the only branch with
an effect beyond logging is `401`, which calls `handleLogout`.  Returns the
store it leaves behind and the number of logout signals emitted. -/
def handleApiError (status : Nat) (store : MMKV) : MMKV × Nat :=
  if status = 401 then handleLogout store else (store, 0)

/-- A response delivered to the caller of `apiClient`. -/
structure Response where
  status : Nat
  body : String
deriving Repr, DecidableEq

/-- Outcome of one transport attempt on `apiClient`, before the response
interceptor runs.  Mirrors the axios error shape the interceptor
distinguishes: `error.response` present (HTTP status received),
`error.request` present but no response (network failure), or neither
(request setup error). -/
inductive AxiosOutcome where
  | success (resp : Response)
  | httpError (status : Nat) (message : String)
  | networkError (message : String)
  | setupError (message : String)
deriving Repr, DecidableEq

/-- What `apiClient(...)`'s promise settles to after the response
interceptor: the response, or a rejection carrying `error.message`. -/
inductive SendResult where
  | ok (resp : Response)
  | reject (message : String)
deriving Repr, DecidableEq

/-- The observable trace of one logical call through `apiClient`: the value
the caller's promise settles to, the final store, and counts of the effects
the claims talk about.  `secondAttempt` is the config handed to the
transport on the retried attempt (after the request interceptor), `none`
when no retry was issued. -/
structure SendTrace where
  result : SendResult
  store : MMKV
  transportCalls : Nat
  exchangeCalls : Nat
  logoutSignals : Nat
  retrySets : Nat
  finalRetry : Bool
  secondAttempt : Option RequestConfig
deriving Repr, DecidableEq

/-- One logical call through `apiClient`, i.e. the composition of the
request interceptor, the transport, and the response interceptor — including
the interceptor's refresh-and-retry branch, which re-enters the full chain
once via `return apiClient(originalRequest)`.

`o1` is the transport outcome of the first attempt, `o2` of the retried
attempt (consulted only if a retry is issued), `ex` the outcome of the
token-exchange POST (consulted only if `refreshTokens` is invoked).

Response interceptor branches, as in the source:
* success: pass the response through;
* `error.response` with status 401 and `!originalRequest._retry`: set
  `_retry = true`, `await refreshTokens()`; if it returned a truthy token,
  set the Authorization header on the config and re-issue it through
  `apiClient` (full chain, result returned as-is); otherwise `handleLogout()`
  and fall through to `Promise.reject(new Error(error.message))`;
* any other `error.response`: `handleApiError(error)` then reject;
* `error.request` only: log, then reject;
* otherwise: log, then reject. -/
def send (store : MMKV) (config : RequestConfig) (o1 o2 : AxiosOutcome)
    (ex : ExchangeTransport) : SendTrace :=
  let cfg1 := requestInterceptor store config
  match o1 with
  | .success resp =>
      { result := .ok resp, store := store, transportCalls := 1, exchangeCalls := 0
        logoutSignals := 0, retrySets := 0, finalRetry := cfg1.retryFlag
        secondAttempt := none }
  | .httpError status msg =>
      if status = 401 ∧ cfg1.retryFlag = false then
        let cfg2 := { cfg1 with retryFlag := true }
        let r := refreshTokens store ex
        if jsTruthy r.newAccessToken then
          -- error.config.headers.Authorization = `Bearer ${newAccessToken}`
          let cfg3 := { cfg2 with
            headers := { cfg2.headers with
              authorization := some ("Bearer " ++ r.newAccessToken.getD "") } }
          -- return apiClient(originalRequest): request interceptor runs again
          let cfg4 := requestInterceptor r.store cfg3
          match o2 with
          | .success resp =>
              { result := .ok resp, store := r.store, transportCalls := 2
                exchangeCalls := r.exchangeCalls, logoutSignals := 0
                retrySets := 1, finalRetry := true, secondAttempt := some cfg4 }
          | .httpError status2 msg2 =>
              -- 401 here falls to the else branch (`_retry` is true):
              -- handleApiError, which on 401 performs handleLogout
              let sl := handleApiError status2 r.store
              { result := .reject msg2, store := sl.1, transportCalls := 2
                exchangeCalls := r.exchangeCalls, logoutSignals := sl.2
                retrySets := 1, finalRetry := true, secondAttempt := some cfg4 }
          | .networkError msg2 =>
              { result := .reject msg2, store := r.store, transportCalls := 2
                exchangeCalls := r.exchangeCalls, logoutSignals := 0
                retrySets := 1, finalRetry := true, secondAttempt := some cfg4 }
          | .setupError msg2 =>
              { result := .reject msg2, store := r.store, transportCalls := 2
                exchangeCalls := r.exchangeCalls, logoutSignals := 0
                retrySets := 1, finalRetry := true, secondAttempt := some cfg4 }
        else
          let sl := handleLogout r.store
          { result := .reject msg, store := sl.1, transportCalls := 1
            exchangeCalls := r.exchangeCalls, logoutSignals := sl.2
            retrySets := 1, finalRetry := true, secondAttempt := none }
      else
        let sl := handleApiError status store
        { result := .reject msg, store := sl.1, transportCalls := 1
          exchangeCalls := 0, logoutSignals := sl.2, retrySets := 0
          finalRetry := cfg1.retryFlag, secondAttempt := none }
  | .networkError msg =>
      { result := .reject msg, store := store, transportCalls := 1
        exchangeCalls := 0, logoutSignals := 0, retrySets := 0
        finalRetry := cfg1.retryFlag, secondAttempt := none }
  | .setupError msg =>
      { result := .reject msg, store := store, transportCalls := 1
        exchangeCalls := 0, logoutSignals := 0, retrySets := 0
        finalRetry := cfg1.retryFlag, secondAttempt := none }

/-- The refresh phase of N logical calls whose first attempts all receive a
401 before any refresh completes.  Each activation of the response
interceptor calls `refreshTokens()` directly — the module has no shared
in-flight promise or other de-duplication — and `refreshTokens` reads the
store synchronously before its first `await` (the exchange POST).  The
store is only written after an exchange settles, so under the premise "all
N receive 401 before any refresh completes" every one of the N invocations
reads the initial store.  `ex i` is the outcome of the i-th activation's
own exchange POST.

This definition covers the refresh phase only (how many exchange POSTs are
made and what each `refreshTokens()` call returns); the N calls' writes to
the one shared store and the subsequent retries interleave in ways this
per-invocation view does not model, so nothing here describes which token a
retried request ends up attaching. -/
def concurrent401Refreshes (n : Nat) (store : MMKV)
    (ex : Nat → ExchangeTransport) : List RefreshResult :=
  (List.range n).map fun i => refreshTokens store (ex i)

/-- Total number of token-exchange network calls performed across a set of
refresh invocations. -/
def totalExchangeCalls (rs : List RefreshResult) : Nat :=
  (rs.map (fun r => r.exchangeCalls)).sum

/-! ### Helper lemmas -/

theorem requestInterceptor_retryFlag (store : MMKV) (config : RequestConfig) :
    (requestInterceptor store config).retryFlag = config.retryFlag := by
  simp only [requestInterceptor]
  split <;> rfl

theorem refreshTokens_success (store : MMKV) (t r : String)
    (h : jsTruthy (store.getString "refresh_token") = true) :
    refreshTokens store (.success ⟨some t, some r⟩) =
      ⟨some t, (store.set "refresh_token" r).set "access_token" t, 1⟩ := by
  simp [refreshTokens, refreshTokensBody, bareAxiosPost, MMKV.setJS, h]

theorem refreshTokens_failed_exchange (store : MMKV) (ex : ExchangeTransport)
    (h : jsTruthy (store.getString "refresh_token") = true)
    (hfail : ∀ d, ex ≠ .success d) :
    refreshTokens store ex = ⟨none, ⟨none, none⟩, 1⟩ := by
  cases ex with
  | success d => exact absurd rfl (hfail d)
  | httpError s m =>
      simp [refreshTokens, refreshTokensBody, bareAxiosPost, h, MMKV.delete]
  | networkError m =>
      simp [refreshTokens, refreshTokensBody, bareAxiosPost, h, MMKV.delete]

theorem refreshTokens_no_token (store : MMKV) (ex : ExchangeTransport)
    (h : jsTruthy (store.getString "refresh_token") = false) :
    refreshTokens store ex = ⟨none, ⟨none, none⟩, 0⟩ := by
  simp [refreshTokens, refreshTokensBody, h, MMKV.delete]

theorem refreshTokens_one_exchange (store : MMKV) (ex : ExchangeTransport)
    (h : jsTruthy (store.getString "refresh_token") = true) :
    (refreshTokens store ex).exchangeCalls = 1 := by
  cases ex with
  | success d =>
      obtain ⟨acc, rot⟩ := d
      cases rot with
      | none => simp [refreshTokens, refreshTokensBody, bareAxiosPost, MMKV.setJS, h]
      | some r =>
          cases acc with
          | none =>
              simp [refreshTokens, refreshTokensBody, bareAxiosPost, MMKV.setJS, h]
          | some a =>
              simp [refreshTokens, refreshTokensBody, bareAxiosPost, MMKV.setJS, h]
  | httpError s m => simp [refreshTokens, refreshTokensBody, bareAxiosPost, h]
  | networkError m => simp [refreshTokens, refreshTokensBody, bareAxiosPost, h]

/-! ### Claims -/

/-- C1, as stated, is false of the code: there is no single-flight
coordination, so two logical calls that both receive a 401 before any
refresh completes each perform their own token-exchange call — two exchange
calls, not exactly one (and the two `refreshTokens()` invocations return
two different tokens, here "t0" and "t1", not one single token). -/
theorem C1_counterexample :
    totalExchangeCalls (concurrent401Refreshes 2 ⟨some "a0", some "r0"⟩
        (fun i => .success ⟨some ("t" ++ toString i), some "nr"⟩)) ≠ 1 ∧
    (concurrent401Refreshes 2 ⟨some "a0", some "r0"⟩
        (fun i => .success ⟨some ("t" ++ toString i), some "nr"⟩)).map
      (fun r => r.newAccessToken) = [some "t0", some "t1"] := by
  decide

/-- C1 (amended): for N logical calls that concurrently receive a 401 before
any refresh completes, each call invokes `refreshTokens()` independently and
performs its own token-exchange call — N exchange calls in total, not one —
whatever outcome each call's own exchange has. -/
theorem C1_amended_each_call_refreshes_independently (n : Nat) (store : MMKV)
    (ex : Nat → ExchangeTransport)
    (h : jsTruthy (store.getString "refresh_token") = true) :
    totalExchangeCalls (concurrent401Refreshes n store ex) = n := by
  have hconst :
      ((fun r => RefreshResult.exchangeCalls r) ∘ fun i =>
        refreshTokens store (ex i)) = fun _ => 1 := by
    funext i
    simp [Function.comp, refreshTokens_one_exchange store (ex i) h]
  rw [totalExchangeCalls, concurrent401Refreshes, List.map_map, hconst]
  induction n with
  | zero => rfl
  | succ m ih => simp [List.range_succ, ih]

/-- Witness for `C1_amended_each_call_refreshes_independently` at N = 2. -/
theorem C1_amended_witness :
    totalExchangeCalls (concurrent401Refreshes 2 ⟨some "a0", some "r0"⟩
      (fun i => .success ⟨some ("t" ++ toString i), some "nr"⟩)) = 2 :=
  C1_amended_each_call_refreshes_independently 2 ⟨some "a0", some "r0"⟩
    (fun i => .success ⟨some ("t" ++ toString i), some "nr"⟩) (by decide)

/-- C2: a logical call whose first attempt gets a 401 (with the refresh
exchange succeeding) and whose retried attempt also gets a 401 makes exactly
two transport calls and one refresh, ends in the logout path with a rejected
promise, and its `_retry` flag is written exactly once (false → true) before
the second attempt is issued. -/
theorem C2_double_401_two_transport_calls (store : MMKV)
    (config : RequestConfig) (msg msg2 t r : String)
    (hretry : config.retryFlag = false)
    (hrt : jsTruthy (store.getString "refresh_token") = true)
    (ht : t ≠ "") :
    (send store config (.httpError 401 msg) (.httpError 401 msg2)
        (.success ⟨some t, some r⟩)).transportCalls = 2 ∧
    (send store config (.httpError 401 msg) (.httpError 401 msg2)
        (.success ⟨some t, some r⟩)).exchangeCalls = 1 ∧
    (send store config (.httpError 401 msg) (.httpError 401 msg2)
        (.success ⟨some t, some r⟩)).retrySets = 1 ∧
    (send store config (.httpError 401 msg) (.httpError 401 msg2)
        (.success ⟨some t, some r⟩)).finalRetry = true ∧
    ((send store config (.httpError 401 msg) (.httpError 401 msg2)
        (.success ⟨some t, some r⟩)).secondAttempt.map
      (fun c => c.retryFlag)) = some true ∧
    (send store config (.httpError 401 msg) (.httpError 401 msg2)
        (.success ⟨some t, some r⟩)).logoutSignals = 1 ∧
    (send store config (.httpError 401 msg) (.httpError 401 msg2)
        (.success ⟨some t, some r⟩)).result = .reject msg2 := by
  simp [send, requestInterceptor_retryFlag, hretry,
    refreshTokens_success _ _ _ hrt, jsTruthy, ht, handleApiError, handleLogout]

/-- Witness for `C2_double_401_two_transport_calls`. -/
theorem C2_witness :
    (send ⟨some "a0", some "r0"⟩ ⟨"/p", "get", none, ⟨none, []⟩, false⟩
        (.httpError 401 "e1") (.httpError 401 "e2")
        (.success ⟨some "tA", some "rA"⟩)).transportCalls = 2 ∧
    (send ⟨some "a0", some "r0"⟩ ⟨"/p", "get", none, ⟨none, []⟩, false⟩
        (.httpError 401 "e1") (.httpError 401 "e2")
        (.success ⟨some "tA", some "rA"⟩)).exchangeCalls = 1 ∧
    (send ⟨some "a0", some "r0"⟩ ⟨"/p", "get", none, ⟨none, []⟩, false⟩
        (.httpError 401 "e1") (.httpError 401 "e2")
        (.success ⟨some "tA", some "rA"⟩)).retrySets = 1 ∧
    (send ⟨some "a0", some "r0"⟩ ⟨"/p", "get", none, ⟨none, []⟩, false⟩
        (.httpError 401 "e1") (.httpError 401 "e2")
        (.success ⟨some "tA", some "rA"⟩)).finalRetry = true ∧
    ((send ⟨some "a0", some "r0"⟩ ⟨"/p", "get", none, ⟨none, []⟩, false⟩
        (.httpError 401 "e1") (.httpError 401 "e2")
        (.success ⟨some "tA", some "rA"⟩)).secondAttempt.map
      (fun c => c.retryFlag)) = some true ∧
    (send ⟨some "a0", some "r0"⟩ ⟨"/p", "get", none, ⟨none, []⟩, false⟩
        (.httpError 401 "e1") (.httpError 401 "e2")
        (.success ⟨some "tA", some "rA"⟩)).logoutSignals = 1 ∧
    (send ⟨some "a0", some "r0"⟩ ⟨"/p", "get", none, ⟨none, []⟩, false⟩
        (.httpError 401 "e1") (.httpError 401 "e2")
        (.success ⟨some "tA", some "rA"⟩)).result = .reject "e2" :=
  C2_double_401_two_transport_calls ⟨some "a0", some "r0"⟩
    ⟨"/p", "get", none, ⟨none, []⟩, false⟩ "e1" "e2" "tA" "rA"
    rfl (by decide) (by decide)

/-- C3: when the refresh exchange fails (network error or non-success
status), `refreshTokens` resolves its awaiting caller with the failure
(`null`), both tokens are removed from the store, the logout path runs, and
the logical call settles in a rejection (the caller receives the failure,
never a retried response). -/
theorem C3_refresh_failure_logs_out (store : MMKV) (config : RequestConfig)
    (msg : String) (o2 : AxiosOutcome) (ex : ExchangeTransport)
    (hretry : config.retryFlag = false)
    (hrt : jsTruthy (store.getString "refresh_token") = true)
    (hfail : ∀ d, ex ≠ .success d) :
    (refreshTokens store ex).newAccessToken = none ∧
    (send store config (.httpError 401 msg) o2 ex).result = .reject msg ∧
    (send store config (.httpError 401 msg) o2 ex).store.access_token = none ∧
    (send store config (.httpError 401 msg) o2 ex).store.refresh_token = none ∧
    (send store config (.httpError 401 msg) o2 ex).logoutSignals = 1 ∧
    (send store config (.httpError 401 msg) o2 ex).transportCalls = 1 ∧
    (send store config (.httpError 401 msg) o2 ex).exchangeCalls = 1 := by
  simp [send, requestInterceptor_retryFlag, hretry,
    refreshTokens_failed_exchange store ex hrt hfail, jsTruthy,
    handleLogout, MMKV.delete]

/-- Witness for `C3_refresh_failure_logs_out`: a 500 from the refresh
endpoint. -/
theorem C3_witness :
    (refreshTokens ⟨some "a0", some "r0"⟩ (.httpError 500 "boom")).newAccessToken
      = none ∧
    (send ⟨some "a0", some "r0"⟩ ⟨"/p", "get", none, ⟨none, []⟩, false⟩
        (.httpError 401 "e1") (.success ⟨200, "ok"⟩)
        (.httpError 500 "boom")).result = .reject "e1" ∧
    (send ⟨some "a0", some "r0"⟩ ⟨"/p", "get", none, ⟨none, []⟩, false⟩
        (.httpError 401 "e1") (.success ⟨200, "ok"⟩)
        (.httpError 500 "boom")).store.access_token = none ∧
    (send ⟨some "a0", some "r0"⟩ ⟨"/p", "get", none, ⟨none, []⟩, false⟩
        (.httpError 401 "e1") (.success ⟨200, "ok"⟩)
        (.httpError 500 "boom")).store.refresh_token = none ∧
    (send ⟨some "a0", some "r0"⟩ ⟨"/p", "get", none, ⟨none, []⟩, false⟩
        (.httpError 401 "e1") (.success ⟨200, "ok"⟩)
        (.httpError 500 "boom")).logoutSignals = 1 ∧
    (send ⟨some "a0", some "r0"⟩ ⟨"/p", "get", none, ⟨none, []⟩, false⟩
        (.httpError 401 "e1") (.success ⟨200, "ok"⟩)
        (.httpError 500 "boom")).transportCalls = 1 ∧
    (send ⟨some "a0", some "r0"⟩ ⟨"/p", "get", none, ⟨none, []⟩, false⟩
        (.httpError 401 "e1") (.success ⟨200, "ok"⟩)
        (.httpError 500 "boom")).exchangeCalls = 1 :=
  C3_refresh_failure_logs_out ⟨some "a0", some "r0"⟩
    ⟨"/p", "get", none, ⟨none, []⟩, false⟩ "e1" (.success ⟨200, "ok"⟩)
    (.httpError 500 "boom") rfl (by decide) (by intro d h; cases h)

/-- C4: a 401 received while no refresh token is stored makes the refresh
fail immediately (`null`, zero exchange calls), and the call goes straight
to the logout path — no token-exchange network call is ever attempted. -/
theorem C4_missing_refresh_token_no_exchange (store : MMKV)
    (config : RequestConfig) (msg : String) (o2 : AxiosOutcome)
    (ex : ExchangeTransport)
    (hretry : config.retryFlag = false)
    (habs : store.getString "refresh_token" = none) :
    (refreshTokens store ex).newAccessToken = none ∧
    (refreshTokens store ex).exchangeCalls = 0 ∧
    (send store config (.httpError 401 msg) o2 ex).exchangeCalls = 0 ∧
    (send store config (.httpError 401 msg) o2 ex).logoutSignals = 1 ∧
    (send store config (.httpError 401 msg) o2 ex).result = .reject msg ∧
    (send store config (.httpError 401 msg) o2 ex).transportCalls = 1 := by
  have hf : jsTruthy (store.getString "refresh_token") = false := by
    rw [habs]; rfl
  simp [send, requestInterceptor_retryFlag, hretry,
    refreshTokens_no_token store ex hf, jsTruthy, handleLogout, MMKV.delete]

/-- Witness for `C4_missing_refresh_token_no_exchange`. -/
theorem C4_witness :
    (refreshTokens ⟨some "a0", none⟩ (.success ⟨some "tA", some "rA"⟩)).newAccessToken
      = none ∧
    (refreshTokens ⟨some "a0", none⟩
      (.success ⟨some "tA", some "rA"⟩)).exchangeCalls = 0 ∧
    (send ⟨some "a0", none⟩ ⟨"/p", "get", none, ⟨none, []⟩, false⟩
        (.httpError 401 "e1") (.success ⟨200, "ok"⟩)
        (.success ⟨some "tA", some "rA"⟩)).exchangeCalls = 0 ∧
    (send ⟨some "a0", none⟩ ⟨"/p", "get", none, ⟨none, []⟩, false⟩
        (.httpError 401 "e1") (.success ⟨200, "ok"⟩)
        (.success ⟨some "tA", some "rA"⟩)).logoutSignals = 1 ∧
    (send ⟨some "a0", none⟩ ⟨"/p", "get", none, ⟨none, []⟩, false⟩
        (.httpError 401 "e1") (.success ⟨200, "ok"⟩)
        (.success ⟨some "tA", some "rA"⟩)).result = .reject "e1" ∧
    (send ⟨some "a0", none⟩ ⟨"/p", "get", none, ⟨none, []⟩, false⟩
        (.httpError 401 "e1") (.success ⟨200, "ok"⟩)
        (.success ⟨some "tA", some "rA"⟩)).transportCalls = 1 :=
  C4_missing_refresh_token_no_exchange ⟨some "a0", none⟩
    ⟨"/p", "get", none, ⟨none, []⟩, false⟩ "e1" (.success ⟨200, "ok"⟩)
    (.success ⟨some "tA", some "rA"⟩) rfl rfl

/-- C5, as stated, is false of the code: on a successful exchange response
that provides a new access token but no rotated refresh token, the
previously stored refresh token ("r0") is NOT retained — the unconditional
`set('refresh_token', undefined)` throws, the `catch` deletes both tokens,
and the new access token is not stored either. -/
theorem C5_counterexample :
    (refreshTokens ⟨some "a0", some "r0"⟩
      (.success ⟨some "newA", none⟩)).store.refresh_token ≠ some "r0" ∧
    (refreshTokens ⟨some "a0", some "r0"⟩
      (.success ⟨some "newA", none⟩)).store.access_token = none ∧
    (refreshTokens ⟨some "a0", some "r0"⟩
      (.success ⟨some "newA", none⟩)).newAccessToken = none := by
  decide

/-- C5 (amended): on a successful exchange response that provides both a new
access token and a rotated refresh token, both are written to the store (and
the token is returned); on a successful response that provides no rotated
refresh token, the unconditional store write of the missing value throws,
the refresh is treated as failed, and both tokens are deleted — the previous
refresh token is not retained. -/
theorem C5_amended_rotation_required (store : MMKV) (a r : String)
    (hrt : jsTruthy (store.getString "refresh_token") = true) :
    refreshTokens store (.success ⟨some a, some r⟩) =
      ⟨some a, (store.set "refresh_token" r).set "access_token" a, 1⟩ ∧
    ∀ acc, refreshTokens store (.success ⟨acc, none⟩) = ⟨none, ⟨none, none⟩, 1⟩ := by
  refine ⟨refreshTokens_success store a r hrt, fun acc => ?_⟩
  simp [refreshTokens, refreshTokensBody, bareAxiosPost, MMKV.setJS, hrt,
    MMKV.delete]

/-- Witness for `C5_amended_rotation_required`. -/
theorem C5_witness :
    refreshTokens ⟨some "a0", some "r0"⟩ (.success ⟨some "newA", some "newR"⟩) =
      ⟨some "newA",
        ((⟨some "a0", some "r0"⟩ : MMKV).set "refresh_token" "newR").set
          "access_token" "newA", 1⟩ ∧
    ∀ acc, refreshTokens ⟨some "a0", some "r0"⟩ (.success ⟨acc, none⟩) =
      ⟨none, ⟨none, none⟩, 1⟩ :=
  C5_amended_rotation_required ⟨some "a0", some "r0"⟩ "newA" "newR" (by decide)

/-- C6: a transport attempt that fails with no response received (the
`error.request` branch) is rejected to the caller as-is: one transport call,
no refresh, no retry, no logout, and the store untouched. -/
theorem C6_network_error_untouched (store : MMKV) (config : RequestConfig)
    (m : String) (o2 : AxiosOutcome) (ex : ExchangeTransport) :
    (send store config (.networkError m) o2 ex).result = .reject m ∧
    (send store config (.networkError m) o2 ex).store = store ∧
    (send store config (.networkError m) o2 ex).transportCalls = 1 ∧
    (send store config (.networkError m) o2 ex).exchangeCalls = 0 ∧
    (send store config (.networkError m) o2 ex).logoutSignals = 0 ∧
    (send store config (.networkError m) o2 ex).retrySets = 0 ∧
    (send store config (.networkError m) o2 ex).secondAttempt = none := by
  simp [send]

/-- C7: `handleLogout` is idempotent — the first invocation clears both
tokens, the second finds the store already empty and leaves it unchanged,
both invocations emit the logout signal, and (its whole body being wrapped
in `try`/`catch` over non-throwing operations) neither invocation raises. -/
theorem C7_logout_idempotent (store : MMKV) :
    (handleLogout store).1 = ⟨none, none⟩ ∧
    (handleLogout (handleLogout store).1).1 = (handleLogout store).1 ∧
    (handleLogout store).2 = 1 ∧
    (handleLogout (handleLogout store).1).2 = 1 := by
  simp [handleLogout, MMKV.delete]

/-- C8: the token-exchange POST goes through the bare `axios` instance
(`bareAxiosPost`), which carries none of `apiClient`'s interceptors, so a
401 from the refresh endpoint is handled exactly like a plain network
failure — same result, no nested refresh and no retry of the exchange (at
most one exchange call is ever made, whatever the store holds). -/
theorem C8_refresh_exchange_uninterceptable (store : MMKV) (status : Nat)
    (m m' : String) :
    refreshTokens store (.httpError status m) =
      refreshTokens store (.networkError m') ∧
    (refreshTokens store (.httpError status m)).exchangeCalls ≤ 1 := by
  cases h : jsTruthy (store.getString "refresh_token") <;>
    simp [refreshTokens, refreshTokensBody, bareAxiosPost, h]

/-- C9: `refreshTokens` never lets an exception escape — every throwing path
of its `try` body (missing refresh token, exchange rejection, missing
response field) lands in the `catch`, which deletes both tokens from the
store before the function returns `null`. -/
theorem C9_refresh_total_clears_before_null (store : MMKV)
    (ex : ExchangeTransport) (e : String × MMKV)
    (h : (refreshTokensBody store ex).1 = Except.error e) :
    (refreshTokens store ex).newAccessToken = none ∧
    (refreshTokens store ex).store.access_token = none ∧
    (refreshTokens store ex).store.refresh_token = none := by
  obtain ⟨em, es⟩ := e
  rcases hbody : refreshTokensBody store ex with ⟨exc, k⟩
  rw [hbody] at h
  simp only at h
  subst h
  simp [refreshTokens, hbody, MMKV.delete]

/-- Witness for `C9_refresh_total_clears_before_null`: the missing-token
throw path. -/
theorem C9_witness :
    (refreshTokens ⟨some "a0", none⟩ (.networkError "down")).newAccessToken
      = none ∧
    (refreshTokens ⟨some "a0", none⟩
      (.networkError "down")).store.access_token = none ∧
    (refreshTokens ⟨some "a0", none⟩
      (.networkError "down")).store.refresh_token = none :=
  C9_refresh_total_clears_before_null ⟨some "a0", none⟩ (.networkError "down")
    ("No refresh token available.", ⟨some "a0", none⟩) rfl

/-- C10, as stated, is false of the code: with the empty string stored as
`access_token` — present in the store, but falsy in JavaScript — the request
interceptor leaves the config unchanged and does not set the Authorization
header. -/
theorem C10_counterexample :
    (⟨some "", some "r0"⟩ : MMKV).getString "access_token" = some "" ∧
    requestInterceptor ⟨some "", some "r0"⟩
        ⟨"/p", "get", none, ⟨none, []⟩, false⟩ =
      ⟨"/p", "get", none, ⟨none, []⟩, false⟩ ∧
    (requestInterceptor ⟨some "", some "r0"⟩
        ⟨"/p", "get", none, ⟨none, []⟩, false⟩).headers.authorization = none := by
  decide

/-- C10 (amended): when the stored access token is absent or empty (falsy),
the request interceptor returns the config entirely unchanged — a
caller-supplied Authorization header passes through untouched; when a
non-empty access token is stored, exactly the Authorization header is set to
`Bearer <token>` and every other field of the config (url, method, body,
remaining headers, retry flag) is unchanged. -/
theorem C10_amended_bearer_frame (store : MMKV) (config : RequestConfig) :
    (jsTruthy (store.getString "access_token") = false →
      requestInterceptor store config = config) ∧
    (∀ t, store.getString "access_token" = some t → t ≠ "" →
      requestInterceptor store config =
        { config with headers := { config.headers with
            authorization := some ("Bearer " ++ t) } }) := by
  constructor
  · intro hf
    simp [requestInterceptor, hf]
  · intro t hsome hne
    simp [requestInterceptor, hsome, jsTruthy, hne]

/-- Witness for `C10_amended_bearer_frame`: the falsy branch with an empty
stored token and a caller-supplied Authorization header, and the truthy
branch with a non-empty token. -/
theorem C10_witness :
    requestInterceptor ⟨some "", none⟩
        ⟨"/p", "get", none, ⟨some "Basic xyz", []⟩, false⟩ =
      ⟨"/p", "get", none, ⟨some "Basic xyz", []⟩, false⟩ ∧
    requestInterceptor ⟨some "a0", none⟩
        ⟨"/p", "get", none, ⟨some "Basic xyz", [("Accept", "json")]⟩, false⟩ =
      ⟨"/p", "get", none,
        ⟨some ("Bearer " ++ "a0"), [("Accept", "json")]⟩, false⟩ :=
  ⟨(C10_amended_bearer_frame ⟨some "", none⟩
      ⟨"/p", "get", none, ⟨some "Basic xyz", []⟩, false⟩).1 (by decide),
   (C10_amended_bearer_frame ⟨some "a0", none⟩
      ⟨"/p", "get", none, ⟨some "Basic xyz", [("Accept", "json")]⟩, false⟩).2
     "a0" rfl (by decide)⟩
